import Mathlib

/-!
Shallow embedding of `src/server_openrouter.py` (the MCP protocol dispatcher
and usage-accounting engine) for verification of the specification's claims.

Modelling conventions:
* Python dicts that may lack keys become structures with `Option` fields;
  `dict.get(k, d)` becomes `Option.getD`.
* The Postgres store is an explicit list of rows plus a `StoreStatus` that
  says whether connecting / querying succeeds; the network call to
  OpenRouter is an explicit `ProviderResult` input.
* Money is modelled with `ℚ` (Python uses binary floats; all the literals
  and operations of the pricing code are exactly representable decisions
  over decimals, which ℚ carries exactly).
* A raised Python exception inside the dispatcher is an `Except.error`
  carrying `str(e)`; `handle_tool_call`'s `try/except` is the outer match.
-/

/-- Server version string (`__version__` in the source). -/
def version : String := "2.1.0"

/-- Session id, `str(uuid.uuid4())` generated once at process start.
The concrete value is irrelevant to the logic; it is opaque here. -/
def SESSION_ID : String := "00000000-0000-4000-8000-000000000000"

/-- `AVAILABLE_MODELS`: alias → fully-qualified provider model id. -/
def AVAILABLE_MODELS : List (String × String) :=
  [("gemini-pro", "google/gemini-2.5-pro-preview")]

/-- `DEFAULT_MODEL`. -/
def DEFAULT_MODEL : String := "gemini-pro"

/-- `AVAILABLE_MODELS.get(model, model)`: unknown aliases pass through. -/
def lookupModel (model : String) : String :=
  match AVAILABLE_MODELS.find? (fun kv => kv.1 = model) with
  | some kv => kv.2
  | none => model

/-- Reachability of the durable store for one operation: the connection
attempt may fail (`get_db_connection` returns `None`), or the connection
succeeds but the query raises (the `except` branches). -/
inductive StoreStatus where
  | up
  | connFail
  | queryFail (msg : String)
deriving DecidableEq

/-- Environment for store operations: reachability plus the date
predicates evaluated inside SQL (`DATE(created_at) = CURRENT_DATE` and
the month truncation comparison), abstract over the row timestamp. -/
structure DbEnv where
  store : StoreStatus
  isToday : Nat → Bool
  isThisMonth : Nat → Bool

/-- One persisted row of the `usage_records` table.  `created_at` is the
server-assigned timestamp, modelled as the row's insertion index. -/
structure UsageRecord where
  model : String
  prompt_tokens : Nat
  completion_tokens : Nat
  total_tokens : Nat
  prompt_cost : ℚ
  completion_cost : ℚ
  total_cost : ℚ
  request_type : String
  session_id : String
  created_at : Nat
deriving DecidableEq

/-- One entry of the in-memory `token_usage["requests"]` list. -/
structure MemRequest where
  model : String
  prompt_tokens : Nat
  completion_tokens : Nat
  total_tokens : Nat
  cost : ℚ
deriving DecidableEq

/-- The module-global `token_usage` in-memory mirror. -/
structure TokenUsage where
  total_prompt_tokens : Nat
  total_completion_tokens : Nat
  total_cost : ℚ
  requests : List MemRequest
deriving DecidableEq

/-- Process state touched by a call: the durable table and the mirror. -/
structure ServerState where
  db : List UsageRecord
  token_usage : TokenUsage
deriving DecidableEq

/-- State at process start: empty table, zeroed mirror. -/
def initialState : ServerState := ⟨[], ⟨0, 0, 0, []⟩⟩

/-- The `usage` object of a provider response; every field may be absent. -/
structure UsageBlock where
  prompt_tokens : Option Nat
  completion_tokens : Option Nat
  total_tokens : Option Nat
  cost : Option ℚ
deriving DecidableEq

/-- Relevant fields of a successful OpenRouter JSON body:
`choices[0].message.content`, `usage`, `provider`, `model`. -/
structure ResponseBody where
  content : Option String
  usage : Option UsageBlock
  provider : Option String
  model : Option String
deriving DecidableEq

/-- Outcome of the `requests.post` call, as discriminated by the
`except` clauses of `call_openrouter`. -/
inductive ProviderResult where
  | success (body : ResponseBody)
  | httpError (msg : String) (detail : String)
  | transportError (msg : String)
  | otherError (ename : String) (msg : String)
deriving DecidableEq

/-- True on any of the three failure branches of `call_openrouter`. -/
def ProviderResult.isFailure : ProviderResult → Bool
  | .success _ => false
  | _ => true

/-- The error text each failure branch embeds in the returned content. -/
def ProviderResult.errText : ProviderResult → String
  | .success _ => ""
  | .httpError msg detail => "OpenRouter API Error: " ++ msg ++ "\nDetails: " ++ detail
  | .transportError msg => "Error calling OpenRouter: " ++ msg
  | .otherError ename msg => "Unexpected error: " ++ ename ++ ": " ++ msg

/-- Left-pad a digit string with zeros to width `w`. -/
def padZeros (s : String) (w : Nat) : String :=
  String.mk (List.replicate (w - s.length) '0') ++ s

/-- Decimal rendering of Python's fixed-point format specifier
(`f"...:{prec}f"`), done exactly over ℚ with rounding half up. -/
def formatFixed (q : ℚ) (prec : Nat) : String :=
  let scaled := q * (10 : ℚ) ^ prec
  let n : ℤ := (scaled.num * 2 + (scaled.den : ℤ)).fdiv (2 * (scaled.den : ℤ))
  let m := n.natAbs
  (if n < 0 then "-" else "") ++ toString (m / 10 ^ prec) ++ "." ++
    padZeros (toString (m % 10 ^ prec)) prec

/-- Input cost of `save_usage_to_db`: $1.25 per 1M tokens up to 200K,
$2.50 per 1M tokens beyond. -/
def promptCostOf (prompt_tokens : Nat) : ℚ :=
  if prompt_tokens ≤ 200000 then
    ((prompt_tokens : ℚ) / 1000000) * 1.25
  else
    ((200000 : ℚ) / 1000000) * 1.25 + (((prompt_tokens : ℚ) - 200000) / 1000000) * 2.50

/-- Output cost of `save_usage_to_db`: $10 per 1M tokens up to 200K,
$15 per 1M tokens beyond. -/
def completionCostOf (completion_tokens : Nat) : ℚ :=
  if completion_tokens ≤ 200000 then
    ((completion_tokens : ℚ) / 1000000) * 10.0
  else
    ((200000 : ℚ) / 1000000) * 10.0 + (((completion_tokens : ℚ) - 200000) / 1000000) * 15.0

/-- `save_usage_to_db`: appends one row when the store is reachable
(prompt/completion costs always tier-computed, total cost preferring a
strictly positive API-provided cost); silently does nothing when the
connection or the insert fails. -/
def save_usage_to_db (store : StoreStatus) (db : List UsageRecord) (model : String)
    (prompt_tokens completion_tokens total_tokens : Nat) (cost : ℚ)
    (request_type : String) : List UsageRecord :=
  match store with
  | .up =>
      let prompt_cost := promptCostOf prompt_tokens
      let completion_cost := completionCostOf completion_tokens
      let total_cost := if cost > 0 then cost else prompt_cost + completion_cost
      db ++ [⟨model, prompt_tokens, completion_tokens, total_tokens,
              prompt_cost, completion_cost, total_cost, request_type, SESSION_ID, db.length⟩]
  | .connFail => db
  | .queryFail _ => db

/-- The usage view embedded in a successful `call_openrouter` result;
`estimated_cost` is the already-formatted dollar string. -/
structure UsageView where
  prompt_tokens : Nat
  completion_tokens : Nat
  total_tokens : Nat
  estimated_cost : String
deriving DecidableEq

/-- Return value of `call_openrouter` (`usage = none` on failure). -/
structure CallResponse where
  content : String
  usage : Option UsageView
  model : String
  provider : Option String
  model_id : Option String
deriving DecidableEq

/-- One provider invocation as issued on the wire (for tracing which
prompt/parameters the dispatcher sent). -/
structure ProviderCall where
  prompt : String
  model : String
  temperature : ℚ
  max_tokens : Nat
deriving DecidableEq

/-- `call_openrouter`: on success extracts text/usage with defaults,
persists a usage row, updates the in-memory mirror; on any failure
returns the error text as content, touching no state. -/
def call_openrouter (store : StoreStatus) (st : ServerState) (net : ProviderResult)
    (prompt model : String) (temperature : ℚ) (max_tokens : Nat) :
    CallResponse × ServerState :=
  match net with
  | .success result =>
      let model_id := lookupModel model
      let content := (result.content).getD "No response"
      let usage := (result.usage).getD ⟨none, none, none, none⟩
      let prompt_tokens := (usage.prompt_tokens).getD 0
      let completion_tokens := (usage.completion_tokens).getD 0
      let total_tokens := (usage.total_tokens).getD 0
      let estimated_cost := (usage.cost).getD 0
      let db := save_usage_to_db store st.db model prompt_tokens completion_tokens
        total_tokens estimated_cost "ask_ai"
      let mem : TokenUsage :=
        ⟨st.token_usage.total_prompt_tokens + prompt_tokens,
         st.token_usage.total_completion_tokens + completion_tokens,
         st.token_usage.total_cost + estimated_cost,
         st.token_usage.requests ++
           [⟨model, prompt_tokens, completion_tokens, total_tokens, estimated_cost⟩]⟩
      let provider := (result.provider).getD "Unknown"
      (⟨content,
        some ⟨prompt_tokens, completion_tokens, total_tokens,
              "$" ++ formatFixed estimated_cost 6⟩,
        model, some provider, some ((result.model).getD model_id)⟩,
       ⟨db, mem⟩)
  | .httpError msg detail =>
      (⟨"OpenRouter API Error: " ++ msg ++ "\nDetails: " ++ detail, none, model, none, none⟩, st)
  | .transportError msg =>
      (⟨"Error calling OpenRouter: " ++ msg, none, model, none, none⟩, st)
  | .otherError ename msg =>
      (⟨"Unexpected error: " ++ ename ++ ": " ++ msg, none, model, none, none⟩, st)

/-- One row of the detailed query of `get_usage_from_db`
(`total_cost as cost` is the aliased column). -/
structure DbRow where
  model : String
  prompt_tokens : Nat
  completion_tokens : Nat
  total_tokens : Nat
  cost : ℚ
  created_at : Nat
  request_type : String
deriving DecidableEq

/-- The dict returned by `get_usage_from_db`.  The two failure returns
carry only the keys `error`, `total_prompt_tokens`,
`total_completion_tokens`, `total_cost`, `requests`; `total_tokens` and
`total_requests` are absent there, hence `Option`. -/
structure UsageData where
  error : Option String
  total_prompt_tokens : Nat
  total_completion_tokens : Nat
  total_tokens : Option Nat
  total_cost : ℚ
  total_requests : Option Nat
  requests : List DbRow
deriving DecidableEq

/-- The WHERE clause built from `period` (with `custom` requiring both
bounds, else no condition, exactly as the Python condition list). -/
def periodMatches (env : DbEnv) (period : String) (start_date end_date : Option Nat)
    (r : UsageRecord) : Bool :=
  if period = "today" then env.isToday r.created_at
  else if period = "month" then env.isThisMonth r.created_at
  else if period = "session" then r.session_id = SESSION_ID
  else if period = "custom" then
    match start_date, end_date with
    | some s, some e => decide (s ≤ r.created_at ∧ r.created_at ≤ e)
    | _, _ => true
  else true

/-- Projection of a stored row to the columns of the detailed SELECT. -/
def recordToRow (r : UsageRecord) : DbRow :=
  ⟨r.model, r.prompt_tokens, r.completion_tokens, r.total_tokens,
   r.total_cost, r.created_at, r.request_type⟩

/-- `get_usage_from_db`: aggregate statistics (and, when `detailed`, the
20 most recent rows, newest first) for the period, or the degraded error
dict when the connection or the query fails. -/
def get_usage_from_db (env : DbEnv) (db : List UsageRecord) (detailed : Bool)
    (period : String) (start_date end_date : Option Nat) : UsageData :=
  match env.store with
  | .connFail => ⟨some "Database connection failed", 0, 0, none, 0, none, []⟩
  | .queryFail msg => ⟨some msg, 0, 0, none, 0, none, []⟩
  | .up =>
      let rows := db.filter (periodMatches env period start_date end_date)
      ⟨none,
       (rows.map (fun r => r.prompt_tokens)).sum,
       (rows.map (fun r => r.completion_tokens)).sum,
       some (rows.map (fun r => r.total_tokens)).sum,
       (rows.map (fun r => r.total_cost)).sum,
       some rows.length,
       if detailed then (rows.reverse.take 20).map recordToRow else []⟩

/-- Truthiness of `response.get('provider')`: present and non-empty. -/
def providerInfoText (provider : Option String) : String :=
  match provider with
  | some p => if p ≠ "" then " (" ++ p ++ ")" else ""
  | none => ""

/-- The usage summary block appended to AI tool results
(empty when the call failed and `usage` is `None`). -/
def usageInfoText (usage : Option UsageView) : String :=
  match usage with
  | none => ""
  | some u =>
      "\n\n📊 Token Usage:\n" ++
      "- Prompt tokens: " ++ toString u.prompt_tokens ++ "\n" ++
      "- Completion tokens: " ++ toString u.completion_tokens ++ "\n" ++
      "- Total tokens: " ++ toString u.total_tokens ++ "\n" ++
      "- Estimated cost: " ++ u.estimated_cost

/-- Result text of the three AI tools; `label` is `RESPONSE`,
`CODE REVIEW` or `BRAINSTORM` (the f-string is otherwise identical in
the three branches of `handle_tool_call`). -/
def aiResultText (label : String) (response : CallResponse) : String :=
  "🤖 " ++ response.model.toUpper ++ providerInfoText response.provider ++
    " " ++ label ++ ":\n\n" ++ response.content ++ usageInfoText response.usage

/-- The five-point review prompt template of `ai_code_review`. -/
def reviewPrompt (focus code : String) : String :=
  "Please review this code with a focus on " ++ focus ++ ":\n\n```\n" ++ code ++
  "\n```\n\nProvide specific, actionable feedback on:\n" ++
  "1. Potential issues or bugs\n2. Security concerns\n" ++
  "3. Performance optimizations\n4. Best practices\n5. Code clarity and maintainability"

/-- The brainstorm prompt of `ai_brainstorm` (context line only when the
context string is truthy). -/
def brainstormPrompt (topic context : String) : String :=
  (if context ≠ "" then
    "Let's brainstorm about: " ++ topic ++ "\n\nContext: " ++ context
  else
    "Let's brainstorm about: " ++ topic) ++
  "\n\nProvide creative ideas, alternatives, and considerations."

/-- The f-string rendering of an optional value (`None` prints as such). -/
def pyStrOfOpt (o : Option String) : String :=
  match o with
  | some s => s
  | none => "None"

/-- Period heading of the usage statistics text. -/
def periodLabel (period : String) : String :=
  if period = "all" then "All Time"
  else if period = "today" then "Today"
  else if period = "month" then "This Month"
  else if period = "session" then "Current Session"
  else period

/-- The per-request history lines of the detailed usage view (at most 10
of the returned rows; every row carries `created_at`, so the `in` check
of the source is always true).  Python renders counts with thousands
separators; numbers are rendered plainly here. -/
def historyText (reqs : List DbRow) : String :=
  ((reqs.take 10).enum).foldl
    (fun acc ir =>
      acc ++ "\n" ++ toString (ir.1 + 1) ++ ". Model: " ++ ir.2.model ++ "\n" ++
      "   Tokens: " ++ toString ir.2.total_tokens ++ " (P:" ++
        toString ir.2.prompt_tokens ++ ", C:" ++ toString ir.2.completion_tokens ++ ")\n" ++
      "   Cost: $" ++ formatFixed ir.2.cost 4 ++ "\n" ++
      "   Time: " ++ toString ir.2.created_at ++ "\n")
    ""

/-- The session-fallback text of `get_token_usage` (in-memory mirror). -/
def fallbackText (mem : TokenUsage) (err : String) : String :=
  "⚠️ Error getting usage data: " ++ err ++ "\n\n" ++
  "Falling back to session data:\n\n" ++
  "Total Prompt Tokens: " ++ toString mem.total_prompt_tokens ++ "\n" ++
  "Total Completion Tokens: " ++ toString mem.total_completion_tokens ++ "\n" ++
  "Total Tokens: " ++ toString (mem.total_prompt_tokens + mem.total_completion_tokens) ++ "\n" ++
  "Total Estimated Cost: $" ++ formatFixed mem.total_cost 4 ++ "\n" ++
  "Total Requests: " ++ toString mem.requests.length ++ "\n"

/-- The statistics text of `get_token_usage` built from the query result
(`tt`/`tr` are the values of the present `total_tokens`/`total_requests`
keys). -/
def statsText (detailed : Bool) (period : String) (d : UsageData) (tt tr : Nat) : String :=
  let base :=
    "📊 Token Usage Statistics (" ++ periodLabel period ++ "):\n\n" ++
    "Total Prompt Tokens: " ++ toString d.total_prompt_tokens ++ "\n" ++
    "Total Completion Tokens: " ++ toString d.total_completion_tokens ++ "\n" ++
    "Total Tokens: " ++ toString tt ++ "\n" ++
    "Total Estimated Cost: $" ++ formatFixed d.total_cost 4 ++ "\n" ++
    "Total Requests: " ++ toString tr ++ "\n"
  if detailed && !d.requests.isEmpty then
    base ++ "\n\n📝 Request History:\n" ++ historyText d.requests
  else base

/-- The `get_token_usage` formatting logic of `handle_tool_call`.  The
fallback branch is entered only when an `error` key is present AND its
value differs from `"Database connection failed"`; otherwise the
statistics branch runs and reads the `total_tokens` / `total_requests`
keys, raising `KeyError` (modelled as `Except.error` with `str(e)`)
when they are absent from the degraded dict. -/
def format_token_usage (mem : TokenUsage) (detailed : Bool) (period : String)
    (usage_data : UsageData) : Except String String :=
  if usage_data.error.isSome ∧ usage_data.error ≠ some "Database connection failed" then
    .ok (fallbackText mem (usage_data.error.getD ""))
  else
    match usage_data.total_tokens with
    | none => .error "'total_tokens'"
    | some tt =>
        match usage_data.total_requests with
        | none => .error "'total_requests'"
        | some tr => .ok (statsText detailed period usage_data tt tr)

/-- The `arguments` dict of a `tools/call` request; every key optional. -/
structure ToolArguments where
  prompt : Option String
  model : Option String
  temperature : Option ℚ
  max_tokens : Option Nat
  code : Option String
  focus : Option String
  topic : Option String
  context : Option String
  detailed : Option Bool
  period : Option String
deriving DecidableEq

/-- The empty `arguments` dict. -/
def ToolArguments.empty : ToolArguments :=
  ⟨none, none, none, none, none, none, none, none, none, none⟩

/-- The `params` object of a request (`name` / `arguments` optional). -/
structure ToolParams where
  name : Option String
  arguments : Option ToolArguments
deriving DecidableEq

/-- A JSON-RPC request id: string, number, or null/absent. -/
inductive RequestId where
  | str (s : String)
  | num (n : Int)
  | null
deriving DecidableEq

/-- A decoded request: `method`, `id`, `params` via `.get` (absent keys
become `none` / `null`). -/
structure JsonRpcRequest where
  method : Option String
  id : RequestId
  params : Option ToolParams
deriving DecidableEq

/-- A tool description; the JSON schema is kept as the property-name
skeleton (property names and the `required` list). -/
structure ToolDescriptor where
  name : String
  description : String
  properties : List String
  required : List String
deriving DecidableEq

/-- One `content` item of a tool result. -/
structure ContentItem where
  type : String
  text : String
deriving DecidableEq

/-- The `result` object of a response, by shape. -/
inductive ResultPayload where
  | initResult (protocolVersion : String) (serverName : String) (serverVersion : String)
  | toolsList (tools : List ToolDescriptor)
  | content (items : List ContentItem)
deriving DecidableEq

/-- A JSON-RPC error object. -/
structure ErrorObj where
  code : Int
  message : String
deriving DecidableEq

/-- An emitted response: `id` plus `result` and/or `error` fields (the
type allows both or neither so that exclusivity is a provable property,
not a typing artifact). -/
structure JsonRpcResponse where
  id : RequestId
  result : Option ResultPayload
  error : Option ErrorObj
deriving DecidableEq

/-- The provider-backed dispatch of `handle_tool_call`, inside the
`try`: returns the result text, the updated state and the provider
calls issued, or the message of a raised exception. -/
def dispatch_tool (apiKey : String) (env : DbEnv) (st : ServerState)
    (net : ProviderResult) (params : ToolParams) :
    Except String (String × ServerState × List ProviderCall) :=
  let tool_name := params.name
  let arguments := (params.arguments).getD ToolArguments.empty
  if tool_name = some "server_info" then
    .ok ((if apiKey ≠ "" then
        "Server v" ++ version ++ " - OpenRouter connected and ready!\nAvailable models: " ++
          String.intercalate ", " (AVAILABLE_MODELS.map (fun kv => kv.1))
      else
        "Server v" ++ version ++ " - Please set your OpenRouter API key"), st, [])
  else if tool_name = some "ask_ai" then
    let prompt := (arguments.prompt).getD ""
    let model := (arguments.model).getD DEFAULT_MODEL
    let temperature := (arguments.temperature).getD 0.5
    let max_tokens := (arguments.max_tokens).getD 4096
    let out := call_openrouter env.store st net prompt model temperature max_tokens
    .ok (aiResultText "RESPONSE" out.1, out.2, [⟨prompt, model, temperature, max_tokens⟩])
  else if tool_name = some "ai_code_review" then
    let code := (arguments.code).getD ""
    let model := (arguments.model).getD DEFAULT_MODEL
    let focus := (arguments.focus).getD "general"
    let prompt := reviewPrompt focus code
    let out := call_openrouter env.store st net prompt model 0.2 8192
    .ok (aiResultText "CODE REVIEW" out.1, out.2, [⟨prompt, model, 0.2, 8192⟩])
  else if tool_name = some "ai_brainstorm" then
    let topic := (arguments.topic).getD ""
    let model := (arguments.model).getD DEFAULT_MODEL
    let context := (arguments.context).getD ""
    let prompt := brainstormPrompt topic context
    let out := call_openrouter env.store st net prompt model 0.7 4096
    .ok (aiResultText "BRAINSTORM" out.1, out.2, [⟨prompt, model, 0.7, 4096⟩])
  else if tool_name = some "list_models" then
    .ok ((AVAILABLE_MODELS.foldl
        (fun acc kv => acc ++ "- " ++ kv.1 ++ ": " ++ kv.2 ++ "\n")
        "📋 Available AI Models through OpenRouter:\n\n") ++
      "\nDefault model: " ++ DEFAULT_MODEL, st, [])
  else if tool_name = some "get_token_usage" then
    let detailed := (arguments.detailed).getD false
    let period := (arguments.period).getD "all"
    let usage_data := get_usage_from_db env st.db detailed period none none
    match format_token_usage st.token_usage detailed period usage_data with
    | .ok text => .ok (text, st, [])
    | .error e => .error e
  else if tool_name = some "get_cache_stats" then
    .ok ("📊 Cache Statistics:\n\n" ++
      "Cache feature is not yet implemented.\n" ++
      "This will track repeated prompts to save on API costs.", st, [])
  else
    .error ("Unknown tool: " ++ pyStrOfOpt tool_name)

/-- `handle_tool_call`: wraps the dispatch in a result response, or any
raised exception in a `-32603` error response (the `except` clause). -/
def handle_tool_call (apiKey : String) (env : DbEnv) (st : ServerState)
    (net : ProviderResult) (request_id : RequestId) (params : ToolParams) :
    JsonRpcResponse × ServerState × List ProviderCall :=
  match dispatch_tool apiKey env st net params with
  | .ok out => (⟨request_id, some (.content [⟨"text", out.1⟩]), none⟩, out.2.1, out.2.2)
  | .error msg => (⟨request_id, none, some ⟨-32603, msg⟩⟩, st, [])

/-- Source `handle_initialize`: the fixed capability/version announcement. -/
def handleInitRequest (request_id : RequestId) : JsonRpcResponse :=
  ⟨request_id, some (.initResult "2024-11-05" "claude-openrouter-mcp" version), none⟩

/-- The diagnostic tool advertised when no credential is configured. -/
def serverInfoTool : ToolDescriptor :=
  ⟨"server_info", "Get server status and configuration info", [], []⟩

/-- The six tools advertised when a credential is configured (schemas
kept as property-name skeletons). -/
def fullToolSet : List ToolDescriptor :=
  [⟨"ask_ai", "Ask any AI model through OpenRouter and get the response with token usage",
    ["prompt", "model", "temperature", "max_tokens"], ["prompt"]⟩,
   ⟨"ai_code_review", "Have any AI model review code through OpenRouter",
    ["code", "model", "focus"], ["code"]⟩,
   ⟨"ai_brainstorm", "Brainstorm solutions with any AI model through OpenRouter",
    ["topic", "model", "context"], ["topic"]⟩,
   ⟨"list_models", "List all available AI models through OpenRouter", [], []⟩,
   ⟨"get_token_usage", "Get current token usage and cost statistics",
    ["detailed", "period"], []⟩,
   ⟨"get_cache_stats", "Get cache statistics including hit rate and savings", [], []⟩]

/-- `handle_tools_list`: full set with a truthy API key, else only the
diagnostic tool. -/
def handle_tools_list (apiKey : String) (request_id : RequestId) : JsonRpcResponse :=
  let tools := if apiKey ≠ "" then fullToolSet else [serverInfoTool]
  ⟨request_id, some (.toolsList tools), none⟩

/-- The method router of `main` for one decoded request. -/
def routeRequest (apiKey : String) (env : DbEnv) (st : ServerState)
    (net : ProviderResult) (req : JsonRpcRequest) :
    JsonRpcResponse × ServerState × List ProviderCall :=
  let params := (req.params).getD ⟨none, none⟩
  if req.method = some "initialize" then (handleInitRequest req.id, st, [])
  else if req.method = some "tools/list" then (handle_tools_list apiKey req.id, st, [])
  else if req.method = some "tools/call" then handle_tool_call apiKey env st net req.id params
  else (⟨req.id, none, some ⟨-32601, "Method not found: " ++ pyStrOfOpt req.method⟩⟩, st, [])

/-- One input line: either text that fails `json.loads` or a decoded
request (each request line carries the provider outcome its dispatch
would observe, since at most one provider call happens per request). -/
inductive InputLine where
  | malformed
  | request (req : JsonRpcRequest)

/-- The `while True` loop of `main`: a `JSONDecodeError` is swallowed
with `continue` (no response); each decoded request yields exactly one
response, written before the next line is read. -/
def runLoop (apiKey : String) (env : DbEnv) :
    ServerState → List (InputLine × ProviderResult) → List JsonRpcResponse
  | _, [] => []
  | st, (.malformed, _) :: rest => runLoop apiKey env st rest
  | st, (.request req, net) :: rest =>
      let out := routeRequest apiKey env st net req
      out.1 :: runLoop apiKey env out.2.1 rest

/-- The tool names recognised by the dispatch of `handle_tool_call`
(independently of credential availability). -/
def knownToolNames : List String :=
  ["server_info", "ask_ai", "ai_code_review", "ai_brainstorm",
   "list_models", "get_token_usage", "get_cache_stats"]

/-- The heading word of each AI tool's result text. -/
def aiLabel (name : String) : String :=
  if name = "ask_ai" then "RESPONSE"
  else if name = "ai_code_review" then "CODE REVIEW"
  else "BRAINSTORM"

/-- Environment with a reachable store. -/
def envUp : DbEnv := ⟨.up, fun _ => false, fun _ => false⟩

/-- Environment whose store connection cannot be established. -/
def envDown : DbEnv := ⟨.connFail, fun _ => false, fun _ => false⟩

/-- A well-formed provider body reporting 5 prompt / 2 completion /
7 total tokens and no cost. -/
def okBody : ResponseBody :=
  ⟨some "hello", some ⟨some 5, some 2, some 7, none⟩, some "Google", none⟩

/-- Provider body whose usage omits `total_tokens`. -/
def noTotalBody : ResponseBody :=
  ⟨some "hello", some ⟨some 5, some 2, none, none⟩, none, none⟩

/-- The persisted table after one successful call whose provider usage
omitted `total_tokens`. -/
def c1db : List UsageRecord :=
  (call_openrouter .up initialState (.success noTotalBody) "hi" "gemini-pro" 0.5 4096).2.db

/-- Process state after two successful provider calls made while the
store connection was down (rows lost, mirror updated). -/
def c2state : ServerState :=
  (call_openrouter .connFail
    (call_openrouter .connFail initialState (.success okBody) "q1" "gemini-pro" 0.5 4096).2
    (.success okBody) "q2" "gemini-pro" 0.5 4096).2

/-- `arguments` of a `get_token_usage` call with `period="session"`. -/
def sessionArgs : ToolArguments :=
  ⟨none, none, none, none, none, none, none, none, none, some "session"⟩

/-- C4: a record written with promptTokens = 250000 and no authoritative
provider cost has input cost exactly 200000/1e6·1.25 + 50000/1e6·2.50;
below the 200,000-token threshold input tokens are priced at 1.25/1M and
beyond it at 2.50/1M, and the output cost has the same two-tier shape at
rates 10/1M and 15/1M. -/
theorem c4_tiered_pricing :
    (∀ db model ct tt r,
      (save_usage_to_db .up db model 250000 ct tt 0 "ask_ai").getLast? = some r →
        r.prompt_cost = ((200000 : ℚ) / 1000000) * 1.25 + ((50000 : ℚ) / 1000000) * 2.50 ∧
        r.total_cost = r.prompt_cost + r.completion_cost) ∧
    (∀ t : Nat, t ≤ 200000 → promptCostOf t = ((t : ℚ) / 1000000) * 1.25) ∧
    (∀ t : Nat, 200000 < t →
      promptCostOf t = ((200000 : ℚ) / 1000000) * 1.25 + (((t : ℚ) - 200000) / 1000000) * 2.50) ∧
    (∀ t : Nat, t ≤ 200000 → completionCostOf t = ((t : ℚ) / 1000000) * 10.0) ∧
    (∀ t : Nat, 200000 < t →
      completionCostOf t = ((200000 : ℚ) / 1000000) * 10.0 + (((t : ℚ) - 200000) / 1000000) * 15.0) := by
  refine ⟨?_, ?_, ?_, ?_, ?_⟩
  · intro db model ct tt r h
    rw [save_usage_to_db, List.getLast?_concat] at h
    cases h
    constructor
    · rw [promptCostOf, if_neg (by norm_num)]
      norm_num
    · norm_num
  · intro t ht
    rw [promptCostOf, if_pos ht]
  · intro t ht
    rw [promptCostOf, if_neg (by omega)]
  · intro t ht
    rw [completionCostOf, if_pos ht]
  · intro t ht
    rw [completionCostOf, if_neg (by omega)]

/-- Witness for C4 at prompt = 250000 tokens. -/
theorem c4_tiered_pricing_witness :
    200000 < 250000 ∧
    promptCostOf 250000 =
      ((200000 : ℚ) / 1000000) * 1.25 + (((250000 : ℚ) : ℚ) - 200000) / 1000000 * 2.50 := by
  constructor
  · decide
  · have h := c4_tiered_pricing.2.2.1 250000 (by norm_num)
    rw [h]
    norm_num

/-- C10: every row appended by `save_usage_to_db` has `prompt_cost` and
`completion_cost` equal to the tier-computed values regardless of the
supplied cost; `total_cost` equals the provider cost when that is
strictly positive and `prompt_cost + completion_cost` otherwise, so the
two can differ only when the provider cost is positive. -/
theorem c10_cost_columns (db : List UsageRecord) (model : String)
    (pt ct tt : Nat) (cost : ℚ) (r : UsageRecord)
    (h : (save_usage_to_db .up db model pt ct tt cost "ask_ai").getLast? = some r) :
    r.prompt_cost = promptCostOf pt ∧
    r.completion_cost = completionCostOf ct ∧
    (0 < cost → r.total_cost = cost) ∧
    (¬ 0 < cost → r.total_cost = r.prompt_cost + r.completion_cost) ∧
    (r.total_cost ≠ r.prompt_cost + r.completion_cost → 0 < cost) := by
  rw [save_usage_to_db, List.getLast?_concat] at h
  cases h
  refine ⟨rfl, rfl, ?_, ?_, ?_⟩
  · intro hc
    simp only [gt_iff_lt, if_pos hc]
  · intro hc
    simp only [gt_iff_lt, if_neg hc]
  · intro hne
    by_contra hc
    exact hne (by simp only [gt_iff_lt, if_neg hc])

/-- Witness for C10 with an authoritative provider cost of 2. -/
theorem c10_cost_columns_witness :
    (save_usage_to_db .up [] "gemini-pro" 100 50 150 2 "ask_ai").getLast? =
      some ⟨"gemini-pro", 100, 50, 150, promptCostOf 100, completionCostOf 50, 2,
            "ask_ai", SESSION_ID, 0⟩ ∧
    (⟨"gemini-pro", 100, 50, 150, promptCostOf 100, completionCostOf 50, 2,
      "ask_ai", SESSION_ID, 0⟩ : UsageRecord).total_cost = 2 := by
  have hh : (save_usage_to_db .up [] "gemini-pro" 100 50 150 2 "ask_ai").getLast? =
      some ⟨"gemini-pro", 100, 50, 150, promptCostOf 100, completionCostOf 50, 2,
            "ask_ai", SESSION_ID, 0⟩ := by
    norm_num [save_usage_to_db, List.getLast?_concat]
  have h := c10_cost_columns [] "gemini-pro" 100 50 150 2
    ⟨"gemini-pro", 100, 50, 150, promptCostOf 100, completionCostOf 50, 2,
     "ask_ai", SESSION_ID, 0⟩ hh
  exact ⟨hh, h.2.2.1 (by norm_num)⟩

/-- C8: a line failing JSON decoding yields no response and the loop
continues; one malformed line followed by one well-formed request emits
exactly one response. -/
theorem c8_malformed_lines_skipped :
    (∀ apiKey env st rest net,
      runLoop apiKey env st ((InputLine.malformed, net) :: rest) = runLoop apiKey env st rest) ∧
    (∀ apiKey env st req net1 net2,
      (runLoop apiKey env st
        [(InputLine.malformed, net1), (InputLine.request req, net2)]).length = 1) := by
  constructor
  · intro _ _ _ _ _
    rfl
  · intro _ _ _ _ _ _
    rfl

/-- C1 (refutation): the claim that every persisted record satisfies
totalTokens = promptTokens + completionTokens fails — after one call
whose provider usage reports 5 prompt / 2 completion tokens but omits
`total_tokens`, the single persisted row stores totalTokens = 0, not 7:
`call_openrouter` takes `usage.get("total_tokens", 0)` and
`save_usage_to_db` stores it verbatim, with no recomputation. -/
theorem c1_counterexample :
    c1db.length = 1 ∧
    (c1db.headD ⟨"", 0, 0, 0, 0, 0, 0, "", "", 0⟩).total_tokens = 0 ∧
    (c1db.headD ⟨"", 0, 0, 0, 0, 0, 0, "", "", 0⟩).prompt_tokens = 5 ∧
    (c1db.headD ⟨"", 0, 0, 0, 0, 0, 0, "", "", 0⟩).completion_tokens = 2 ∧
    (0 : Nat) ≠ 5 + 2 := by
  refine ⟨rfl, rfl, rfl, rfl, by decide⟩

/-- C1 (amended): every record newly persisted by a successful provider
call stores exactly the provider-reported `total_tokens` (defaulting to
0 when the field is absent); it is never recomputed from
promptTokens + completionTokens. -/
theorem c1_total_tokens_stored_as_reported (store : StoreStatus) (st : ServerState)
    (result : ResponseBody) (prompt model : String) (temperature : ℚ)
    (max_tokens : Nat) (r : UsageRecord)
    (hr : r ∈ (call_openrouter store st (.success result) prompt model temperature
      max_tokens).2.db)
    (hnew : r ∉ st.db) :
    r.total_tokens = ((result.usage.getD ⟨none, none, none, none⟩).total_tokens).getD 0 := by
  cases store with
  | up =>
      simp only [call_openrouter, save_usage_to_db, List.mem_append,
        List.mem_singleton] at hr
      rcases hr with h | h
      · exact absurd h hnew
      · subst h
        rfl
  | connFail =>
      simp only [call_openrouter, save_usage_to_db] at hr
      exact absurd hr hnew
  | queryFail msg =>
      simp only [call_openrouter, save_usage_to_db] at hr
      exact absurd hr hnew

/-- Witness for the amended C1 at the record persisted in `c1db`. -/
theorem c1_total_tokens_witness :
    (c1db.headD ⟨"", 0, 0, 0, 0, 0, 0, "", "", 0⟩) ∈ c1db ∧
    (c1db.headD ⟨"", 0, 0, 0, 0, 0, 0, "", "", 0⟩) ∉ initialState.db ∧
    (c1db.headD ⟨"", 0, 0, 0, 0, 0, 0, "", "", 0⟩).total_tokens =
      ((noTotalBody.usage.getD ⟨none, none, none, none⟩).total_tokens).getD 0 := by
  have h1 : (c1db.headD ⟨"", 0, 0, 0, 0, 0, 0, "", "", 0⟩) ∈ c1db := by
    rw [show c1db = [c1db.headD ⟨"", 0, 0, 0, 0, 0, 0, "", "", 0⟩] from rfl]
    exact List.mem_singleton.mpr rfl
  have h2 : (c1db.headD ⟨"", 0, 0, 0, 0, 0, 0, "", "", 0⟩) ∉ initialState.db :=
    List.not_mem_nil _
  exact ⟨h1, h2, c1_total_tokens_stored_as_reported .up initialState noTotalBody
    "hi" "gemini-pro" 0.5 4096 _ h1 h2⟩

/-- C2 (code bug): after two successful provider calls recorded in the
in-memory mirror, a `get_token_usage` call made while the store
connection cannot be established does NOT fall back to the in-memory
totals — the degraded dict's error value is exactly
`"Database connection failed"`, which the fallback condition excludes,
so the statistics branch reads the absent `total_tokens` key and the
resulting `KeyError` surfaces as a `-32603` error response. -/
theorem c2_conn_failure_internal_error :
    c2state.token_usage.requests.length = 2 ∧
    (handle_tool_call "sk-or-key" envDown c2state (.success okBody) (.num 9)
        ⟨some "get_token_usage", some sessionArgs⟩).1 =
      ⟨.num 9, none, some ⟨-32603, "'total_tokens'"⟩⟩ := by
  refine ⟨rfl, ?_⟩
  rfl

/-- C3 (refutation): with no credential configured, `tools/list` indeed
returns only the diagnostic `server_info` descriptor, but the tool name
`list_models` — not in that advertised set — still succeeds through
`tools/call` instead of failing with UnknownTool: the dispatch never
consults the credential. -/
theorem c3_counterexample :
    (handle_tools_list "" (.num 1)).result = some (.toolsList [serverInfoTool]) ∧
    "list_models" ∉ [serverInfoTool].map (fun t => t.name) ∧
    (handle_tool_call "" envUp initialState (.success okBody) (.num 2)
        ⟨some "list_models", none⟩).1.error = none ∧
    (handle_tool_call "" envUp initialState (.success okBody) (.num 2)
        ⟨some "list_models", none⟩).1.result ≠ none := by
  refine ⟨rfl, by decide, rfl, ?_⟩
  intro h
  exact Option.noConfusion h

/-- C3 (amended): when the credential is unavailable `tools/list`
advertises exactly the single `server_info` descriptor, but `tools/call`
dispatch ignores the credential: only a name outside the full tool set
fails, with a `-32603` "Unknown tool" error. -/
theorem c3_diagnostic_only_amended (request_id : RequestId) (env : DbEnv)
    (st : ServerState) (net : ProviderResult) (params : ToolParams)
    (h : ∀ n, params.name = some n → n ∉ knownToolNames) :
    (handle_tools_list "" request_id).result = some (.toolsList [serverInfoTool]) ∧
    (handle_tool_call "" env st net request_id params).1.error =
      some ⟨-32603, "Unknown tool: " ++ pyStrOfOpt params.name⟩ := by
  refine ⟨rfl, ?_⟩
  rcases hn : params.name with _ | n
  · simp [handle_tool_call, dispatch_tool, hn, pyStrOfOpt]
  · have hmem := h n hn
    simp only [knownToolNames, List.mem_cons, List.not_mem_nil, or_false,
      not_or] at hmem
    obtain ⟨h1, h2, h3, h4, h5, h6, h7⟩ := hmem
    simp [handle_tool_call, dispatch_tool, hn, h1, h2, h3, h4, h5, h6, h7, pyStrOfOpt]

/-- Witness for the amended C3 at the unknown name `bogus_tool`. -/
theorem c3_diagnostic_only_witness :
    (handle_tools_list "" (.num 4)).result = some (.toolsList [serverInfoTool]) ∧
    (handle_tool_call "" envUp initialState (.success okBody) (.num 4)
        ⟨some "bogus_tool", none⟩).1.error =
      some ⟨-32603, "Unknown tool: bogus_tool"⟩ := by
  have h := c3_diagnostic_only_amended (.num 4) envUp initialState (.success okBody)
    ⟨some "bogus_tool", none⟩ (by
      intro n hn
      obtain rfl : n = "bogus_tool" := (Option.some.inj hn).symm
      decide)
  exact h

/-- C5: when the provider call fails (HTTP error, transport error, or
any other exception), the tool call still succeeds at the protocol
level — the response is a result whose content text embeds the provider
failure text, never a JSON-RPC error — and no state (in particular no
usage record) is persisted. -/
theorem c5_provider_error_surfaced_as_content (apiKey : String) (env : DbEnv)
    (st : ServerState) (net : ProviderResult) (request_id : RequestId)
    (args : ToolArguments) (name : String)
    (hfail : net.isFailure = true)
    (hname : name = "ask_ai" ∨ name = "ai_code_review" ∨ name = "ai_brainstorm") :
    (handle_tool_call apiKey env st net request_id ⟨some name, some args⟩).1.error = none ∧
    (handle_tool_call apiKey env st net request_id ⟨some name, some args⟩).1.result =
      some (.content [⟨"text",
        "🤖 " ++ (args.model.getD DEFAULT_MODEL).toUpper ++ " " ++ aiLabel name ++
          ":\n\n" ++ net.errText⟩]) ∧
    (handle_tool_call apiKey env st net request_id ⟨some name, some args⟩).2.1 = st := by
  rcases hname with rfl | rfl | rfl <;> cases net <;>
    simp_all [handle_tool_call, dispatch_tool, call_openrouter, aiResultText,
      providerInfoText, usageInfoText, aiLabel, ProviderResult.errText,
      ProviderResult.isFailure]

/-- Witness for C5 at a transport failure of `ask_ai`. -/
theorem c5_provider_error_witness :
    (ProviderResult.transportError "timeout").isFailure = true ∧
    (handle_tool_call "sk" envUp initialState (.transportError "timeout") (.num 3)
        ⟨some "ask_ai", some ToolArguments.empty⟩).1.error = none ∧
    (handle_tool_call "sk" envUp initialState (.transportError "timeout") (.num 3)
        ⟨some "ask_ai", some ToolArguments.empty⟩).1.result =
      some (.content [⟨"text",
        "🤖 " ++ (ToolArguments.empty.model.getD DEFAULT_MODEL).toUpper ++ " " ++
          aiLabel "ask_ai" ++ ":\n\n" ++
          (ProviderResult.transportError "timeout").errText⟩]) ∧
    (handle_tool_call "sk" envUp initialState (.transportError "timeout") (.num 3)
        ⟨some "ask_ai", some ToolArguments.empty⟩).2.1 = initialState := by
  have h := c5_provider_error_surfaced_as_content "sk" envUp initialState
    (.transportError "timeout") (.num 3) ToolArguments.empty "ask_ai" rfl (Or.inl rfl)
  exact ⟨rfl, h.1, h.2.1, h.2.2⟩

/-- C6: a `tools/call` response for a known tool always carries exactly
one of `result` / `error` — never both, never neither. -/
theorem c6_exactly_one_result_or_error (apiKey : String) (env : DbEnv)
    (st : ServerState) (net : ProviderResult) (request_id : RequestId)
    (params : ToolParams)
    (hknown : ∃ n, params.name = some n ∧ n ∈ knownToolNames) :
    ((handle_tool_call apiKey env st net request_id params).1.result.isSome = true ∧
     (handle_tool_call apiKey env st net request_id params).1.error = none) ∨
    ((handle_tool_call apiKey env st net request_id params).1.result = none ∧
     (handle_tool_call apiKey env st net request_id params).1.error.isSome = true) := by
  cases hd : dispatch_tool apiKey env st net params with
  | ok out =>
      left
      simp [handle_tool_call, hd]
  | error msg =>
      right
      simp [handle_tool_call, hd]

/-- Witness for C6 at the known tool `get_cache_stats`. -/
theorem c6_exactly_one_witness :
    ((⟨some "get_cache_stats", none⟩ : ToolParams).name = some "get_cache_stats" ∧
      "get_cache_stats" ∈ knownToolNames) ∧
    (((handle_tool_call "sk" envUp initialState (.success okBody) (.num 5)
        ⟨some "get_cache_stats", none⟩).1.result.isSome = true ∧
      (handle_tool_call "sk" envUp initialState (.success okBody) (.num 5)
        ⟨some "get_cache_stats", none⟩).1.error = none) ∨
     ((handle_tool_call "sk" envUp initialState (.success okBody) (.num 5)
        ⟨some "get_cache_stats", none⟩).1.result = none ∧
      (handle_tool_call "sk" envUp initialState (.success okBody) (.num 5)
        ⟨some "get_cache_stats", none⟩).1.error.isSome = true)) := by
  refine ⟨⟨rfl, by decide⟩, ?_⟩
  exact c6_exactly_one_result_or_error "sk" envUp initialState (.success okBody) (.num 5)
    ⟨some "get_cache_stats", none⟩ ⟨"get_cache_stats", rfl, by decide⟩

/-- C7: every error response emitted by the router carries `-32601`
exactly when the method is none of initialize / tools/list / tools/call,
and otherwise `-32603` (unknown tool or caught dispatch exception); no
other code exists. -/
theorem c7_error_codes (apiKey : String) (env : DbEnv) (st : ServerState)
    (net : ProviderResult) (req : JsonRpcRequest) (e : ErrorObj)
    (he : (routeRequest apiKey env st net req).1.error = some e) :
    (e.code = -32601 ↔
      (req.method ≠ some "initialize" ∧ req.method ≠ some "tools/list" ∧
       req.method ≠ some "tools/call")) ∧
    (e.code = -32601 ∨ e.code = -32603) := by
  by_cases h1 : req.method = some "initialize"
  · simp [routeRequest, h1, handleInitRequest] at he
  · by_cases h2 : req.method = some "tools/list"
    · simp [routeRequest, h1, h2, handle_tools_list] at he
    · by_cases h3 : req.method = some "tools/call"
      · simp only [routeRequest, if_neg h1, if_neg h2, if_pos h3] at he
        cases hd : dispatch_tool apiKey env st net ((req.params).getD ⟨none, none⟩) with
        | ok out => simp [handle_tool_call, hd] at he
        | error msg =>
            simp [handle_tool_call, hd] at he
            refine ⟨?_, ?_⟩
            · rw [← he]
              simp [h3]
            · right
              rw [← he]
      · simp only [routeRequest, if_neg h1, if_neg h2, if_neg h3] at he
        simp only [Option.some.injEq] at he
        refine ⟨?_, ?_⟩
        · rw [← he]
          simp [h1, h2, h3]
        · left
          rw [← he]

/-- Witness for C7 at the unknown method `frobnicate`. -/
theorem c7_error_codes_witness :
    (routeRequest "sk" envUp initialState (.success okBody)
        ⟨some "frobnicate", .num 6, none⟩).1.error =
      some ⟨-32601, "Method not found: frobnicate"⟩ ∧
    (((⟨-32601, "Method not found: frobnicate"⟩ : ErrorObj).code = -32601 ↔
      ((some "frobnicate" : Option String) ≠ some "initialize" ∧
       (some "frobnicate" : Option String) ≠ some "tools/list" ∧
       (some "frobnicate" : Option String) ≠ some "tools/call")) ∧
     ((⟨-32601, "Method not found: frobnicate"⟩ : ErrorObj).code = -32601 ∨
      (⟨-32601, "Method not found: frobnicate"⟩ : ErrorObj).code = -32603)) := by
  have hh : (routeRequest "sk" envUp initialState (.success okBody)
      ⟨some "frobnicate", .num 6, none⟩).1.error =
      some ⟨-32601, "Method not found: frobnicate"⟩ := by
    rfl
  exact ⟨hh, c7_error_codes "sk" envUp initialState (.success okBody)
    ⟨some "frobnicate", .num 6, none⟩ ⟨-32601, "Method not found: frobnicate"⟩ hh⟩

/-- C9: invoking ask_ai / ai_code_review / ai_brainstorm without the
schema-required argument raises no dispatch error: the missing argument
defaults to the empty string and exactly one provider call is issued,
with the empty string embedded in the prompt. -/
theorem c9_missing_required_args_default (apiKey : String) (env : DbEnv)
    (st : ServerState) (net : ProviderResult) (request_id : RequestId)
    (args : ToolArguments) :
    (args.prompt = none →
      (handle_tool_call apiKey env st net request_id
        ⟨some "ask_ai", some args⟩).1.error = none ∧
      (handle_tool_call apiKey env st net request_id
        ⟨some "ask_ai", some args⟩).2.2 =
        [⟨"", args.model.getD DEFAULT_MODEL, args.temperature.getD 0.5,
          args.max_tokens.getD 4096⟩]) ∧
    (args.code = none →
      (handle_tool_call apiKey env st net request_id
        ⟨some "ai_code_review", some args⟩).1.error = none ∧
      (handle_tool_call apiKey env st net request_id
        ⟨some "ai_code_review", some args⟩).2.2 =
        [⟨reviewPrompt (args.focus.getD "general") "",
          args.model.getD DEFAULT_MODEL, 0.2, 8192⟩]) ∧
    (args.topic = none →
      (handle_tool_call apiKey env st net request_id
        ⟨some "ai_brainstorm", some args⟩).1.error = none ∧
      (handle_tool_call apiKey env st net request_id
        ⟨some "ai_brainstorm", some args⟩).2.2 =
        [⟨brainstormPrompt "" (args.context.getD ""),
          args.model.getD DEFAULT_MODEL, 0.7, 4096⟩]) := by
  refine ⟨fun h => ?_, fun h => ?_, fun h => ?_⟩ <;>
    simp [handle_tool_call, dispatch_tool, h]

/-- Witness for C9: `ask_ai` with the empty argument dict. -/
theorem c9_missing_args_witness :
    ToolArguments.empty.prompt = none ∧
    (handle_tool_call "sk" envUp initialState (.success okBody) (.num 7)
        ⟨some "ask_ai", some ToolArguments.empty⟩).1.error = none ∧
    (handle_tool_call "sk" envUp initialState (.success okBody) (.num 7)
        ⟨some "ask_ai", some ToolArguments.empty⟩).2.2 =
      [⟨"", DEFAULT_MODEL, 0.5, 4096⟩] := by
  have h := c9_missing_required_args_default "sk" envUp initialState (.success okBody)
    (.num 7) ToolArguments.empty
  exact ⟨rfl, (h.1 rfl).1, (h.1 rfl).2⟩
